import Mathlib

/-!
Verification of the Bifrost LLM-gateway specification against the source.

The governance decision engine (admission / record / control-plane update) ships
only its end-to-end tests under `src/plugins/governance/`; the engine itself is
modelled from the specification (§3, §4.1, §4.3, §8) and cross-checked against
the expectations encoded in those tests.  The streaming loop, the auth
middleware and the Anthropic batch adapter are embedded directly from the
source files (`src/unnamed/part_003`, `part_000`, `part_002`).
-/

namespace Bifrost

/-! ## Governance data model (spec §3) -/

/-- A currency-denominated budget: `{max_limit, current_usage, reset_duration,
last_reset_at}` (spec §3).  Currency amounts are modelled as rationals. -/
structure Budget where
  maxLimit : Rat
  currentUsage : Rat
  resetDuration : Nat
  lastResetAt : Nat
deriving Repr, DecidableEq

/-- A rate limit: two independent dimensions (tokens, requests); an unset max
limit means unlimited (spec §3). -/
structure RateLimit where
  tokenMaxLimit : Option Int
  tokenCurrentUsage : Int
  requestMaxLimit : Option Int
  requestCurrentUsage : Int
deriving Repr, DecidableEq

/-! ## Control-plane update semantics (spec §4.1 "Reset-on-mutation") -/

/-- Modelled from the spec: the governance control-plane update of a budget's
`max_limit` (implementation not under `src/`; only its tests
`config_update_sync_test.go` are).  "When the control-plane changes a budget's
`max_limit` ... to a value strictly less than the current usage on that
dimension, the implementation must reset that dimension's `current_usage` to 0
simultaneously with applying the new max.  A new max that is greater than or
equal to the current usage leaves usage unchanged." -/
def updateBudgetMax (b : Budget) (newMax : Rat) : Budget :=
  if newMax < b.currentUsage then
    { b with maxLimit := newMax, currentUsage := 0 }
  else
    { b with maxLimit := newMax }

/-- Modelled from the spec: control-plane update of a rate-limit's
`token_max_limit`, with the same reset-on-shrink rule, per dimension
independently (spec §4.1, P-U-3). -/
def updateTokenMax (rl : RateLimit) (newMax : Int) : RateLimit :=
  if newMax < rl.tokenCurrentUsage then
    { rl with tokenMaxLimit := some newMax, tokenCurrentUsage := 0 }
  else
    { rl with tokenMaxLimit := some newMax }

/-- Modelled from the spec: control-plane update of a rate-limit's
`request_max_limit`, with the same reset-on-shrink rule (spec §4.1, P-U-4). -/
def updateRequestMax (rl : RateLimit) (newMax : Int) : RateLimit :=
  if newMax < rl.requestCurrentUsage then
    { rl with requestMaxLimit := some newMax, requestCurrentUsage := 0 }
  else
    { rl with requestMaxLimit := some newMax }

/-! ## Admission and usage recording (spec §4.1) -/

/-- The four hierarchical quota scopes (spec §4.1), most specific first. -/
inductive Scope where
  | providerConfig
  | vk
  | team
  | customer
deriving Repr, DecidableEq

/-- A rate-limit dimension. -/
inductive Dim where
  | requests
  | tokens
deriving Repr, DecidableEq

/-- The outcome of the admission check: OK, or DENY(rate_limited) naming the scope
and the dimension that fired (spec §4.1). -/
inductive AdmitResult where
  | ok
  | deny (scope : Scope) (dim : Dim)
deriving Repr, DecidableEq

/-- Modelled from the spec: does one dimension of a rate limit fire?
"if `*_current_usage ≥ *_max_limit` → DENY(rate_limited)"; an unset max limit
means unlimited (spec §3, §4.1). -/
def checkDim (max : Option Int) (usage : Int) : Bool :=
  match max with
  | none => false
  | some m => m ≤ usage

/-- Modelled from the spec: the rate-limit check at one scope.  The request
dimension and the token dimension are independent; either firing is sufficient
(spec §4.1). -/
def checkRL (rl : RateLimit) : Option Dim :=
  if checkDim rl.requestMaxLimit rl.requestCurrentUsage then some Dim.requests
  else if checkDim rl.tokenMaxLimit rl.tokenCurrentUsage then some Dim.tokens
  else none

/-- Check an optionally-attached rate limit (a scope with no rate limit never
denies). -/
def scopeCheck (orl : Option RateLimit) : Option Dim :=
  match orl with
  | none => none
  | some rl => checkRL rl

/-- The rate limits attached along one request's ancestor chain: the selected
provider-config, the VK, its team, its customer (spec §3, §4.1). -/
structure Entities where
  pcRL : Option RateLimit
  vkRL : Option RateLimit
  teamRL : Option RateLimit
  customerRL : Option RateLimit
deriving Repr, DecidableEq

/-- Modelled from the spec: the admission decision over the hierarchy.  "Any DENY
at any level short-circuits with the most specific scope reported" (spec §4.1),
whence scopes are checked most specific first. -/
def admission (e : Entities) : AdmitResult :=
  match scopeCheck e.pcRL with
  | some d => AdmitResult.deny Scope.providerConfig d
  | none =>
    match scopeCheck e.vkRL with
    | some d => AdmitResult.deny Scope.vk d
    | none =>
      match scopeCheck e.teamRL with
      | some d => AdmitResult.deny Scope.team d
      | none =>
        match scopeCheck e.customerRL with
        | some d => AdmitResult.deny Scope.customer d
        | none => AdmitResult.ok

/-- Modelled from the spec: the usage update on one rate limit after a
completed request: "`request_current_usage += 1`;
`token_current_usage += tokens`" (spec §4.1). -/
def recordRL (rl : RateLimit) (tokens : Int) : RateLimit :=
  { rl with
    requestCurrentUsage := rl.requestCurrentUsage + 1
    tokenCurrentUsage := rl.tokenCurrentUsage + tokens }

/-- Modelled from the spec: `Record` applies to every attached rate limit on
the ancestor chain and on the chosen provider-config (spec §4.1). -/
def Entities.record (e : Entities) (tokens : Int) : Entities where
  pcRL := e.pcRL.map (fun rl => recordRL rl tokens)
  vkRL := e.vkRL.map (fun rl => recordRL rl tokens)
  teamRL := e.teamRL.map (fun rl => recordRL rl tokens)
  customerRL := e.customerRL.map (fun rl => recordRL rl tokens)

/-- One serialised request: post-hoc enforcement — the admission check runs against
the counters as they stand, and usage is recorded only after an admitted
request completes (spec §4.1). -/
def step (e : Entities) (tokens : Int) : Entities × AdmitResult :=
  match admission e with
  | AdmitResult.ok => (e.record tokens, AdmitResult.ok)
  | r => (e, r)

/-- A serialised trace of requests, each with its realised token consumption;
returns the admission decision of each request in order. -/
def runTrace (e : Entities) : List Int → List AdmitResult
  | [] => []
  | t :: ts =>
    let p := step e t
    p.2 :: runTrace p.1 ts

/-- Entities with a single VK-scope rate limit carrying only a request
dimension (`request_max_limit = n`, current usage `u`, token dimension
unlimited with running counter `tu`). -/
def vkReqOnly (n u tu : Int) : Entities where
  pcRL := none
  vkRL := some { tokenMaxLimit := none, tokenCurrentUsage := tu,
                 requestMaxLimit := some n, requestCurrentUsage := u }
  teamRL := none
  customerRL := none

theorem runTrace_length (e : Entities) (ts : List Int) :
    (runTrace e ts).length = ts.length := by
  induction ts generalizing e with
  | nil => rfl
  | cons t ts ih => simp [runTrace, ih]

/-! ## Claims C1 and C2: reset-on-shrink / no-reset-on-grow -/

/-- C1: for every budget and every rate-limit dimension, at any scope (both
budgets and rate limits are id-addressed records shared by all four scopes, so
the control-plane update path is the same wherever the record is referenced):
updating the max limit to a value strictly below the dimension's current usage
resets that dimension's `current_usage` to 0 and applies the new max. -/
theorem budget_and_ratelimit_reset_on_shrink
    (b : Budget) (rl rl' : RateLimit) (mB : Rat) (mT mR : Int)
    (hB : mB < b.currentUsage)
    (hT : mT < rl.tokenCurrentUsage)
    (hR : mR < rl'.requestCurrentUsage) :
    ((updateBudgetMax b mB).currentUsage = 0 ∧
      (updateBudgetMax b mB).maxLimit = mB) ∧
    ((updateTokenMax rl mT).tokenCurrentUsage = 0 ∧
      (updateTokenMax rl mT).tokenMaxLimit = some mT) ∧
    ((updateRequestMax rl' mR).requestCurrentUsage = 0 ∧
      (updateRequestMax rl' mR).requestMaxLimit = some mR) := by
  refine ⟨?_, ?_, ?_⟩
  · simp [updateBudgetMax, hB]
  · simp [updateTokenMax, hT]
  · simp [updateRequestMax, hR]

/-- Witness for C1 at concrete records: budget usage 5 shrunk to max 2,
token usage 50 shrunk to max 10, request usage 3 shrunk to max 1. -/
theorem budget_and_ratelimit_reset_on_shrink_witness :
    ((2 : Rat) < (5 : Rat) ∧ (10 : Int) < 50 ∧ (1 : Int) < 3) ∧
    (((updateBudgetMax ⟨10, 5, 3600, 0⟩ 2).currentUsage = 0 ∧
       (updateBudgetMax ⟨10, 5, 3600, 0⟩ 2).maxLimit = 2) ∧
     ((updateTokenMax ⟨some 100, 50, none, 0⟩ 10).tokenCurrentUsage = 0 ∧
       (updateTokenMax ⟨some 100, 50, none, 0⟩ 10).tokenMaxLimit = some 10) ∧
     ((updateRequestMax ⟨none, 0, some 5, 3⟩ 1).requestCurrentUsage = 0 ∧
       (updateRequestMax ⟨none, 0, some 5, 3⟩ 1).requestMaxLimit = some 1)) :=
  ⟨⟨by norm_num, by norm_num, by norm_num⟩,
    budget_and_ratelimit_reset_on_shrink ⟨10, 5, 3600, 0⟩
      ⟨some 100, 50, none, 0⟩ ⟨none, 0, some 5, 3⟩ 2 10 1
      (by norm_num) (by norm_num) (by norm_num)⟩

/-- C2: updating the max limit to a value greater than or equal to the current
usage applies the new max and leaves the dimension's usage unchanged
(the other fields of the record are also untouched by the update). -/
theorem budget_and_ratelimit_no_reset_on_grow
    (b : Budget) (rl rl' : RateLimit) (mB : Rat) (mT mR : Int)
    (hB : b.currentUsage ≤ mB)
    (hT : rl.tokenCurrentUsage ≤ mT)
    (hR : rl'.requestCurrentUsage ≤ mR) :
    ((updateBudgetMax b mB).currentUsage = b.currentUsage ∧
      (updateBudgetMax b mB).maxLimit = mB) ∧
    ((updateTokenMax rl mT).tokenCurrentUsage = rl.tokenCurrentUsage ∧
      (updateTokenMax rl mT).tokenMaxLimit = some mT) ∧
    ((updateRequestMax rl' mR).requestCurrentUsage = rl'.requestCurrentUsage ∧
      (updateRequestMax rl' mR).requestMaxLimit = some mR) := by
  refine ⟨?_, ?_, ?_⟩
  · simp [updateBudgetMax, not_lt.mpr hB]
  · simp [updateTokenMax, not_lt.mpr hT]
  · simp [updateRequestMax, not_lt.mpr hR]

/-- Witness for C2 at concrete records: budget usage 5 grown to max 20 (and to
max equal to usage the same way), token usage 50 grown to max 60, request usage
3 grown to max 3 (the boundary case: equal max leaves usage unchanged). -/
theorem budget_and_ratelimit_no_reset_on_grow_witness :
    ((5 : Rat) ≤ (20 : Rat) ∧ (50 : Int) ≤ 60 ∧ (3 : Int) ≤ 3) ∧
    (((updateBudgetMax ⟨10, 5, 3600, 0⟩ 20).currentUsage = 5 ∧
       (updateBudgetMax ⟨10, 5, 3600, 0⟩ 20).maxLimit = 20) ∧
     ((updateTokenMax ⟨some 100, 50, none, 0⟩ 60).tokenCurrentUsage = 50 ∧
       (updateTokenMax ⟨some 100, 50, none, 0⟩ 60).tokenMaxLimit = some 60) ∧
     ((updateRequestMax ⟨none, 0, some 5, 3⟩ 3).requestCurrentUsage = 3 ∧
       (updateRequestMax ⟨none, 0, some 5, 3⟩ 3).requestMaxLimit = some 3)) :=
  ⟨⟨by norm_num, by norm_num, by norm_num⟩,
    budget_and_ratelimit_no_reset_on_grow ⟨10, 5, 3600, 0⟩
      ⟨some 100, 50, none, 0⟩ ⟨none, 0, some 5, 3⟩ 20 60 3
      (by norm_num) (by norm_num) (by norm_num)⟩

/-! ## Claims C3, C4, C5: serialised rate-limit enforcement -/

/-- The admission decision on a VK whose rate limit carries only the request
dimension. -/
theorem admission_vkReqOnly (n u tu : Int) :
    admission (vkReqOnly n u tu) =
      if n ≤ u then AdmitResult.deny Scope.vk Dim.requests else AdmitResult.ok := by
  by_cases h : n ≤ u <;>
    simp [admission, vkReqOnly, scopeCheck, checkRL, checkDim, h]

theorem record_vkReqOnly (n u tu c : Int) :
    (vkReqOnly n u tu).record c = vkReqOnly n (u + 1) (tu + c) := by
  simp [Entities.record, vkReqOnly, recordRL]

/-- Request-dimension enforcement along a serialised trace: starting from
request usage `u`, the `i`-th request is admitted exactly when `u + i` is still
strictly below the max limit `n`; otherwise it is denied with `rate_limited`
at the VK scope.  (Each admitted request raises the counter by one; a denied
request leaves it unchanged, so all later requests in the window are denied
too.) -/
theorem request_limit_decisions (costs : List Int) (n u tu : Int) (i : Nat)
    (hi : i < costs.length) :
    (runTrace (vkReqOnly n u tu) costs)[i]? =
      some (if u + i < n then AdmitResult.ok
            else AdmitResult.deny Scope.vk Dim.requests) := by
  induction costs generalizing u tu i with
  | nil => simp at hi
  | cons c cs ih =>
    by_cases h : n ≤ u
    · have hstep : runTrace (vkReqOnly n u tu) (c :: cs) =
          AdmitResult.deny Scope.vk Dim.requests :: runTrace (vkReqOnly n u tu) cs := by
        simp [runTrace, step, admission_vkReqOnly, h]
      rw [hstep]
      cases i with
      | zero =>
        rw [List.getElem?_cons_zero]
        split
        · exfalso; omega
        · rfl
      | succ j =>
        have hj : j < cs.length := Nat.lt_of_succ_lt_succ hi
        rw [List.getElem?_cons_succ, ih u tu j hj]
        split <;> split <;> first | rfl | (exfalso; omega)
    · have hstep : runTrace (vkReqOnly n u tu) (c :: cs) =
          AdmitResult.ok :: runTrace (vkReqOnly n (u + 1) (tu + c)) cs := by
        simp [runTrace, step, admission_vkReqOnly, h, record_vkReqOnly]
      rw [hstep]
      cases i with
      | zero =>
        rw [List.getElem?_cons_zero]
        split
        · rfl
        · exfalso; omega
      | succ j =>
        have hj : j < cs.length := Nat.lt_of_succ_lt_succ hi
        rw [List.getElem?_cons_succ, ih (u + 1) (tu + c) j hj]
        split <;> split <;> first | rfl | (exfalso; omega)

/-- C3 counterexample: with `request_max_limit = 1` and two serialised
requests, the second request (request `N + 1`) is already denied, whereas the
claim (P-RL-1 as stated) predicts the first `N + 1 = 2` requests succeed and
only request `N + 2` fails.  This matches the repository's own test
`TestVirtualKeyRequestRateLimitEnforcement`, where request 2 must return 429. -/
theorem request_limit_post_hoc_counterexample :
    runTrace (vkReqOnly 1 0 0) [0, 0] =
        [AdmitResult.ok, AdmitResult.deny Scope.vk Dim.requests] ∧
      AdmitResult.deny Scope.vk Dim.requests ≠ AdmitResult.ok := by
  constructor
  · decide
  · decide

/-- C3 (amended): for a rate limit with `request_max_limit = N` (usage starting
at 0) and serialised requests, the first `N` requests are admitted and succeed,
and request `N + 1` is denied with `rate_limited`. -/
theorem request_limit_first_n_admitted (costs : List Int) (n : Int) (i : Nat)
    (hi : i < costs.length) :
    (runTrace (vkReqOnly n 0 0) costs)[i]? =
      some (if i < n then AdmitResult.ok
            else AdmitResult.deny Scope.vk Dim.requests) := by
  have h := request_limit_decisions costs n 0 0 i hi
  simpa using h

/-- Witness for the amended C3 with `N = 2`: request 1 and request 2 are
admitted, request 3 is denied with `rate_limited` at the VK scope. -/
theorem request_limit_first_n_admitted_witness :
    (runTrace (vkReqOnly 2 0 0) [5, 7, 9])[0]? = some AdmitResult.ok ∧
    (runTrace (vkReqOnly 2 0 0) [5, 7, 9])[1]? = some AdmitResult.ok ∧
    (runTrace (vkReqOnly 2 0 0) [5, 7, 9])[2]? =
      some (AdmitResult.deny Scope.vk Dim.requests) := by
  refine ⟨?_, ?_, ?_⟩
  · have h := request_limit_first_n_admitted [5, 7, 9] 2 0 (by decide)
    simpa using h
  · have h := request_limit_first_n_admitted [5, 7, 9] 2 1 (by decide)
    simpa using h
  · have h := request_limit_first_n_admitted [5, 7, 9] 2 2 (by decide)
    simpa using h

/-- Entities with a single VK-scope rate limit carrying only the token
dimension (`token_max_limit = n`, token usage `tu`, request dimension
unlimited with running counter `ru`). -/
def vkTokOnly (n tu ru : Int) : Entities where
  pcRL := none
  vkRL := some { tokenMaxLimit := some n, tokenCurrentUsage := tu,
                 requestMaxLimit := none, requestCurrentUsage := ru }
  teamRL := none
  customerRL := none

/-- The cumulative token usage observed by request `i` of a serialised trace:
each admitted request (usage still `< n`) adds its own realised token cost. -/
def tokUsageBefore (n : Int) (u : Int) : List Int → Nat → Int
  | _, 0 => u
  | [], _ + 1 => u
  | c :: cs, i + 1 => tokUsageBefore n (if u < n then u + c else u) cs i

theorem admission_vkTokOnly (n tu ru : Int) :
    admission (vkTokOnly n tu ru) =
      if n ≤ tu then AdmitResult.deny Scope.vk Dim.tokens else AdmitResult.ok := by
  by_cases h : n ≤ tu <;>
    simp [admission, vkTokOnly, scopeCheck, checkRL, checkDim, h]

theorem record_vkTokOnly (n tu ru c : Int) :
    (vkTokOnly n tu ru).record c = vkTokOnly n (tu + c) (ru + 1) := by
  simp [Entities.record, vkTokOnly, recordRL]

/-- C4: token-dimension post-hoc enforcement along a serialised trace: request
`i` is admitted exactly when the cumulative token usage at its admission time
is still strictly below `token_max_limit = n` — in particular the request whose
own consumption first crosses `n` is admitted — and a request issued once usage
has reached or exceeded `n` is denied with `rate_limited`. -/
theorem token_limit_decisions (costs : List Int) (n tu ru : Int) (i : Nat)
    (hi : i < costs.length) :
    (runTrace (vkTokOnly n tu ru) costs)[i]? =
      some (if tokUsageBefore n tu costs i < n then AdmitResult.ok
            else AdmitResult.deny Scope.vk Dim.tokens) := by
  induction costs generalizing tu ru i with
  | nil => simp at hi
  | cons c cs ih =>
    by_cases h : n ≤ tu
    · have hstep : runTrace (vkTokOnly n tu ru) (c :: cs) =
          AdmitResult.deny Scope.vk Dim.tokens :: runTrace (vkTokOnly n tu ru) cs := by
        simp [runTrace, step, admission_vkTokOnly, h]
      rw [hstep]
      have hnot : ¬(tu < n) := by omega
      cases i with
      | zero => simp [tokUsageBefore, hnot]
      | succ j =>
        have hj : j < cs.length := Nat.lt_of_succ_lt_succ hi
        rw [List.getElem?_cons_succ, ih tu ru j hj]
        simp only [tokUsageBefore, if_neg hnot]
    · have hlt : tu < n := by omega
      have hstep : runTrace (vkTokOnly n tu ru) (c :: cs) =
          AdmitResult.ok :: runTrace (vkTokOnly n (tu + c) (ru + 1)) cs := by
        simp [runTrace, step, admission_vkTokOnly, h, record_vkTokOnly]
      rw [hstep]
      cases i with
      | zero => simp [tokUsageBefore, hlt]
      | succ j =>
        have hj : j < cs.length := Nat.lt_of_succ_lt_succ hi
        rw [List.getElem?_cons_succ, ih (tu + c) (ru + 1) j hj]
        simp only [tokUsageBefore, if_pos hlt]

/-- Witness for C4 with `token_max_limit = 100` and per-request consumptions
60, 60, 60: request 2 crosses the limit (cumulative 60 < 100 at admission) and
is still admitted; request 3 (cumulative 120 ≥ 100) is denied. -/
theorem token_limit_decisions_witness :
    (runTrace (vkTokOnly 100 0 0) [60, 60, 60])[0]? = some AdmitResult.ok ∧
    (runTrace (vkTokOnly 100 0 0) [60, 60, 60])[1]? = some AdmitResult.ok ∧
    (runTrace (vkTokOnly 100 0 0) [60, 60, 60])[2]? =
      some (AdmitResult.deny Scope.vk Dim.tokens) := by
  refine ⟨?_, ?_, ?_⟩
  · have h := token_limit_decisions [60, 60, 60] 100 0 0 0 (by decide)
    simpa [tokUsageBefore] using h
  · have h := token_limit_decisions [60, 60, 60] 100 0 0 1 (by decide)
    simpa [tokUsageBefore] using h
  · have h := token_limit_decisions [60, 60, 60] 100 0 0 2 (by decide)
    simpa [tokUsageBefore] using h

/-- Entities for the combined scenario of C5: a VK-level rate limit with
`request_max_limit = 5` and a provider-config rate limit with
`request_max_limit = 2` on the same provider. -/
def vkAndProviderLimits : Entities where
  pcRL := some { tokenMaxLimit := none, tokenCurrentUsage := 0,
                 requestMaxLimit := some 2, requestCurrentUsage := 0 }
  vkRL := some { tokenMaxLimit := none, tokenCurrentUsage := 0,
                 requestMaxLimit := some 5, requestCurrentUsage := 0 }
  teamRL := none
  customerRL := none

/-- C5: with a VK-level `request_max_limit = 5` and a provider-config
`request_max_limit = 2`, serialised requests to that provider: the first two
requests are admitted and succeed, and the third is denied with the
provider-config scope — the most specific scope that is exhausted — regardless
of the token costs of the requests. -/
theorem combined_vk_provider_limit (c1 c2 c3 : Int) :
    runTrace vkAndProviderLimits [c1, c2, c3] =
      [AdmitResult.ok, AdmitResult.ok,
        AdmitResult.deny Scope.providerConfig Dim.requests] := by
  simp [runTrace, step, admission, scopeCheck, checkRL, checkDim,
    vkAndProviderLimits, Entities.record, recordRL]

/-! ## Streaming loop (`ChatCompletionStream`, `src/unnamed/part_003`) -/

/-- An upstream SSE chunk once parsed: whether it carries a usage payload and
how many choice deltas (content) it carries. -/
structure UpChunk where
  hasUsage : Bool
  numChoices : Nat
deriving Repr, DecidableEq

/-- One line read from the upstream SSE body, as classified by the streaming
loop of `ChatCompletionStream`:
* `blank` — an empty line or a `:` comment (skipped);
* `done` — the `data: [DONE]` sentinel (breaks the loop);
* `errLine msg` — a payload that unmarshals into a provider error with a
  non-empty message (terminal error event, goroutine returns);
* `malformed` — a payload that fails to unmarshal as a stream response
  (logged and skipped with `continue`);
* `nilChunk` — a payload whose conversion to a Bifrost response is nil
  (skipped);
* `chunk c` — a payload converted into a stream chunk `c`. -/
inductive UpLine where
  | blank
  | done
  | errLine (msg : String)
  | malformed
  | nilChunk
  | chunk (c : UpChunk)
deriving Repr, DecidableEq

/-- A downstream event pushed onto the response channel. -/
inductive Event where
  | chat (chunkIndex : Nat) (hasUsage : Bool)
  | respContent
  | respUsage
  | error (msg : String)
deriving Repr, DecidableEq

/-- Modelled from the spec: `ToBifrostChatStreamResponse`'s companion
`ToBifrostResponsesStreamResponse` (its source is not under `src/`): the
stateful reshaper turns each choice delta into a content event and a
usage-bearing chunk into the terminal usage event, in that order
(spec §4.5, P-ST-2). -/
def toResponsesEvents (c : UpChunk) : List Event :=
  List.replicate c.numChoices Event.respContent ++
    (if c.hasUsage then [Event.respUsage] else [])

/-- The streaming goroutine of `ChatCompletionStream`
(`src/unnamed/part_003:1275-1433`): scans upstream lines; skips blanks,
breaks on `[DONE]`, emits a terminal error and returns on an error payload,
skips (with a logged warning) lines that fail to parse or convert, and for
each converted chunk stamps the running `chunkIndex` and increments it.  In
cross-dialect mode (`fallback = true`) a chunk carrying both usage and
choices is split: its content is processed first with usage stripped, then
its usage with choices stripped.  When the scanner stops with a read error
(`readErr = some msg`, `scanner.Err()`), a terminal error event is emitted.
The returned list ends where the channel is closed. -/
def streamRun (fallback : Bool) (readErr : Option String) :
    Nat → List UpLine → List Event
  | _, [] =>
    match readErr with
    | some m => [Event.error m]
    | none => []
  | idx, l :: rest =>
    match l with
    | UpLine.blank => streamRun fallback readErr idx rest
    | UpLine.done => []
    | UpLine.errLine m => [Event.error m]
    | UpLine.malformed => streamRun fallback readErr idx rest
    | UpLine.nilChunk => streamRun fallback readErr idx rest
    | UpLine.chunk c =>
      (if fallback then
        if c.hasUsage && 0 < c.numChoices then
          toResponsesEvents { c with hasUsage := false } ++
            toResponsesEvents { c with numChoices := 0 }
        else
          toResponsesEvents c
      else
        [Event.chat idx c.hasUsage]) ++ streamRun fallback readErr (idx + 1) rest

/-- The `chunk_index` values carried by the chat chunks of an event list, in
emission order. -/
def chatIndices (evs : List Event) : List Nat :=
  evs.filterMap fun e =>
    match e with
    | Event.chat i _ => some i
    | _ => none

/-- How many converted chunks the loop emits before it stops (blank, malformed
and nil lines are skipped; `[DONE]` and error payloads stop the loop). -/
def chunkCount : List UpLine → Nat
  | [] => 0
  | UpLine.blank :: rest => chunkCount rest
  | UpLine.done :: _ => 0
  | UpLine.errLine _ :: _ => 0
  | UpLine.malformed :: rest => chunkCount rest
  | UpLine.nilChunk :: rest => chunkCount rest
  | UpLine.chunk _ :: rest => chunkCount rest + 1

theorem chatIndices_streamRun (re : Option String) (lines : List UpLine)
    (idx : Nat) :
    chatIndices (streamRun false re idx lines) =
      List.range' idx (chunkCount lines) := by
  induction lines generalizing idx with
  | nil =>
    cases re <;> simp [streamRun, chatIndices, chunkCount]
  | cons l rest ih =>
    cases l with
    | blank => simpa [streamRun, chunkCount] using ih idx
    | done => simp [streamRun, chatIndices, chunkCount]
    | errLine m => simp [streamRun, chatIndices, chunkCount]
    | malformed => simpa [streamRun, chunkCount] using ih idx
    | nilChunk => simpa [streamRun, chunkCount] using ih idx
    | chunk c =>
      have ihx := ih (idx + 1)
      simp only [chatIndices] at ihx
      simp [streamRun, chatIndices, chunkCount, List.filterMap_append,
        ihx, List.range']

/-- C6: within one (chat-completion dialect) stream, the `chunk_index` values
of the emitted chunks are exactly `0, 1, 2, …`: the emitted index list equals
`List.range` of its own count, so the first emitted chunk carries index 0 and
every later chunk a strictly larger index.  Lines that are skipped (blank,
malformed, nil conversions) do not consume an index. -/
theorem stream_chunk_indices_strictly_increasing (re : Option String)
    (lines : List UpLine) :
    chatIndices (streamRun false re 0 lines) = List.range (chunkCount lines) := by
  rw [chatIndices_streamRun, List.range_eq_range']

/-- C7: in a cross-dialect stream (Responses served over
`ChatCompletionStream`), an upstream chunk carrying both content and usage is
delivered as its content events followed by the usage event, before the rest
of the stream. -/
theorem combined_chunk_split (c : UpChunk) (rest : List UpLine) (idx : Nat)
    (re : Option String) (hU : c.hasUsage = true) (hC : 0 < c.numChoices) :
    streamRun true re idx (UpLine.chunk c :: rest) =
      (List.replicate c.numChoices Event.respContent ++ [Event.respUsage]) ++
        streamRun true re (idx + 1) rest := by
  simp [streamRun, toResponsesEvents, hU, hC]

/-- Witness for C7: a single upstream chunk with one content delta and a usage
payload yields exactly two downstream events, content first, usage second. -/
theorem combined_chunk_split_witness :
    streamRun true none 0 [UpLine.chunk ⟨true, 1⟩] =
      [Event.respContent, Event.respUsage] := by
  have h := combined_chunk_split ⟨true, 1⟩ [] 0 none rfl (by decide)
  simpa using h

/-- Is an event a terminal error event? -/
def isErrorEvent : Event → Bool
  | Event.error _ => true
  | _ => false

/-- C8 counterexample: a mid-stream chunk that fails to parse is skipped, and
the stream continues — the following well-formed chunk is still emitted (with
index 0, since skipped lines consume no index) and no error event appears;
the channel then closes normally.  The claim's prediction (terminal error
event, channel closed at the malformed chunk) is false. -/
theorem malformed_chunk_not_terminal_counterexample :
    streamRun false none 0 [UpLine.malformed, UpLine.chunk ⟨false, 1⟩] =
        [Event.chat 0 false] ∧
      (streamRun false none 0 [UpLine.malformed, UpLine.chunk ⟨false, 1⟩]).all
        (fun e => !isErrorEvent e) = true :=
  ⟨rfl, rfl⟩

/-- C8 (amended): a terminal error event is emitted and the channel closed
when a payload parses as a provider error with a non-empty message, or when
the underlying scanner stops with a read error; a chunk that merely fails to
parse as a stream response is logged, skipped, and the stream continues. -/
theorem stream_error_handling (fb : Bool) (re : Option String) (idx : Nat)
    (m rm : String) (rest : List UpLine) :
    (streamRun fb re idx (UpLine.errLine m :: rest) = [Event.error m]) ∧
    (streamRun fb (some rm) idx [] = [Event.error rm]) ∧
    (streamRun fb re idx (UpLine.malformed :: rest) =
      streamRun fb re idx rest) := by
  refine ⟨rfl, rfl, rfl⟩

/-! ## Auth middleware (`validateSession`, `AuthMiddleware`,
`src/unnamed/part_000`) -/

/-- A stored session: only its expiry matters to validation. -/
structure Session where
  expiresAt : Int
deriving Repr, DecidableEq

/-- The auth configuration consulted by `AuthMiddleware`. -/
structure AuthConfig where
  adminUserName : String
  adminPassword : String

/-- The middleware's environment: the config-store session lookup (`none`
models both a lookup error and a missing session), the current time, and the
external base64 / password-hash primitives (`none` models their error
returns). -/
structure AuthEnv where
  getSession : String → Option Session
  now : Int
  base64Decode : String → Option String
  compareHash : String → String → Option Bool
  authConfig : AuthConfig

/-- Function `validateSession` (`src/unnamed/part_000:71-80`): a token is valid when the
store returns a session and its expiry is not before the current time. -/
def validateSession (env : AuthEnv) (token : String) : Bool :=
  match env.getSession token with
  | none => false
  | some s => !(decide (s.expiresAt < env.now))

/-- The request fields `AuthMiddleware` inspects: URI, `Authorization` header
(`""` when absent), `Upgrade` header, and the `token` query argument. -/
structure AuthRequest where
  requestURI : String
  authorization : String
  upgradeHeader : String
  queryToken : String

/-- What the middleware does: pass control to the protected handler, or send
an error status without invoking it. -/
inductive AuthDecision where
  | next
  | denied (status : Nat)
deriving Repr, DecidableEq

/-- The routes exempted from authorization (`src/unnamed/part_000:99-104`). -/
def whitelistedRoutes : List String :=
  ["/api/session/is-auth-enabled", "/api/session/login",
   "/api/session/logout", "/health"]

/-- Go `strings.Cut` at a separator: split at its first occurrence, `none` when
it does not occur. -/
def cutList (sep : Char) : List Char → Option (List Char × List Char)
  | [] => none
  | c :: cs =>
    if c = sep then some ([], cs)
    else
      match cutList sep cs with
      | none => none
      | some p => some (c :: p.1, p.2)

def goCut (sep : Char) (s : String) : Option (String × String) :=
  match cutList sep s.toList with
  | none => none
  | some p => some (String.mk p.1, String.mk p.2)

/-- The decision of `AuthMiddleware`'s handler (`src/unnamed/part_000:105-185`)
when auth is enabled: whitelisted routes pass; with no `Authorization` header
only a websocket upgrade with a valid query token passes; otherwise the header
is cut into scheme and token, `Basic` goes through base64 + admin-credential
comparison, `Bearer` through session validation, and everything else is 401. -/
def authDecision (env : AuthEnv) (req : AuthRequest) : AuthDecision :=
  if req.requestURI ∈ whitelistedRoutes then AuthDecision.next
  else if req.authorization = "" then
    if req.upgradeHeader = "websocket" then
      if req.queryToken = "" then AuthDecision.denied 401
      else if validateSession env req.queryToken then AuthDecision.next
      else AuthDecision.denied 401
    else AuthDecision.denied 401
  else
    match goCut ' ' req.authorization with
    | none => AuthDecision.denied 401
    | some (scheme, token) =>
      if scheme = "Basic" then
        match env.base64Decode token with
        | none => AuthDecision.denied 401
        | some decoded =>
          match goCut ':' decoded with
          | none => AuthDecision.denied 401
          | some (username, password) =>
            if username ≠ env.authConfig.adminUserName then
              AuthDecision.denied 401
            else
              match env.compareHash env.authConfig.adminPassword password with
              | none => AuthDecision.denied 500
              | some b =>
                if b then AuthDecision.next else AuthDecision.denied 401
      else if scheme = "Bearer" then
        if validateSession env token then AuthDecision.next
        else AuthDecision.denied 401
      else AuthDecision.denied 401

theorem cutList_bearer (l : List Char) :
    cutList ' ' ("Bearer ".toList ++ l) = some ("Bearer".toList, l) := by
  simp [cutList, String.toList]

theorem goCut_bearer (t : String) :
    goCut ' ' ("Bearer " ++ t) = some ("Bearer", t) := by
  have h : ("Bearer " ++ t).toList = "Bearer ".toList ++ t.toList := by
    simp [String.toList, String.data_append]
  rw [goCut, h, cutList_bearer]
  rfl

/-- C9: on any bearer-session-authenticated (non-whitelisted) route, a request
whose bearer token is unknown to the session store, or whose stored session
expired before the current time, is denied with HTTP 401 and the protected
handler is never invoked. -/
theorem bearer_unknown_or_expired_unauthorized (env : AuthEnv)
    (req : AuthRequest) (token : String)
    (hw : req.requestURI ∉ whitelistedRoutes)
    (ha : req.authorization = "Bearer " ++ token)
    (hs : env.getSession token = none ∨
      ∃ s, env.getSession token = some s ∧ s.expiresAt < env.now) :
    authDecision env req = AuthDecision.denied 401 ∧
      authDecision env req ≠ AuthDecision.next := by
  have hval : validateSession env token = false := by
    rcases hs with h | ⟨s, hs1, hs2⟩
    · simp [validateSession, h]
    · simp [validateSession, hs1, hs2]
  have hne : ("Bearer " ++ token : String) ≠ "" := by
    intro hcon
    have : ("Bearer " ++ token).toList = ([] : List Char) := by
      rw [hcon]; rfl
    simp [String.toList, String.data_append] at this
  have hd : authDecision env req = AuthDecision.denied 401 := by
    rw [authDecision, if_neg hw, ha, if_neg hne, goCut_bearer]
    simp [hval]
  exact ⟨hd, by rw [hd]; intro hcon; cases hcon⟩

/-- Witness for C9, both branches: a token the store does not know, and a
token whose session expired at time 5 while the clock reads 10. -/
theorem bearer_unknown_or_expired_unauthorized_witness :
    (authDecision
        ⟨fun _ => none, 10, fun _ => none, fun _ _ => none, ⟨"admin", "pw"⟩⟩
        ⟨"/v1/private", "Bearer tok", "", ""⟩ = AuthDecision.denied 401) ∧
    (authDecision
        ⟨fun _ => some ⟨5⟩, 10, fun _ => none, fun _ _ => none, ⟨"admin", "pw"⟩⟩
        ⟨"/v1/private", "Bearer tok", "", ""⟩ = AuthDecision.denied 401) := by
  constructor
  · exact (bearer_unknown_or_expired_unauthorized
      ⟨fun _ => none, 10, fun _ => none, fun _ _ => none, ⟨"admin", "pw"⟩⟩
      ⟨"/v1/private", "Bearer tok", "", ""⟩ "tok" (by decide) (by decide)
      (Or.inl rfl)).1
  · exact (bearer_unknown_or_expired_unauthorized
      ⟨fun _ => some ⟨5⟩, 10, fun _ => none, fun _ _ => none, ⟨"admin", "pw"⟩⟩
      ⟨"/v1/private", "Bearer tok", "", ""⟩ "tok" (by decide) (by decide)
      (Or.inr ⟨⟨5⟩, rfl, by norm_num⟩)).1

/-! ## Anthropic batch adapter (`src/unnamed/part_002`) -/

/-- Anthropic's per-batch request counts. -/
structure AnthropicBatchRequestCounts where
  processing : Int
  succeeded : Int
  errored : Int
  canceled : Int
  expired : Int
deriving Repr, DecidableEq

/-- An Anthropic batch response (`AnthropicBatchResponse`). -/
structure AnthropicBatchResponse where
  id : String
  type : String
  processingStatus : String
  requestCounts : Option AnthropicBatchRequestCounts
  endedAt : Option String
  createdAt : String
  expiresAt : String
  archivedAt : Option String
  cancelInitiatedAt : Option String
  resultsURL : Option String

/-- Bifrost's batch status values. -/
inductive BatchStatus where
  | inProgress
  | cancelling
  | ended
  | other (s : String)
deriving Repr, DecidableEq

/-- Function `ToBifrostBatchStatus`: map Anthropic `processing_status` onto Bifrost's
status, passing unknown values through. -/
def ToBifrostBatchStatus (status : String) : BatchStatus :=
  if status = "in_progress" then BatchStatus.inProgress
  else if status = "canceling" then BatchStatus.cancelling
  else if status = "ended" then BatchStatus.ended
  else BatchStatus.other status

/-- Function `ToBifrostObjectType`: `message_batch` becomes `batch`. -/
def ToBifrostObjectType (anthropicType : String) : String :=
  if anthropicType = "message_batch" then "batch" else anthropicType

/-- Function `parseAnthropicTimestamp`: empty or unparseable timestamps become 0; the
RFC3339 parser itself (`time.Parse`) is an external primitive, passed in. -/
def parseAnthropicTimestamp (timeParse : String → Option Int)
    (timestamp : String) : Int :=
  if timestamp = "" then 0
  else
    match timeParse timestamp with
    | none => 0
    | some t => t

/-- Bifrost's `BatchRequestCounts`; a Go value field, so it defaults to all
zeroes when the provider sends no counts. -/
structure BatchRequestCounts where
  total : Int
  completed : Int
  failed : Int
  succeeded : Int
  expired : Int
  canceled : Int
  pending : Int
deriving Repr, DecidableEq

def zeroBatchRequestCounts : BatchRequestCounts := ⟨0, 0, 0, 0, 0, 0, 0⟩

/-- The fields of `BifrostBatchCreateResponse` the adapter populates (the
transport metadata — provider tag, latency, raw response — is elided). -/
structure BifrostBatchCreateResponse where
  id : String
  object : String
  status : BatchStatus
  processingStatus : String
  resultsURL : Option String
  createdAt : Int
  expiresAt : Int
  requestCounts : BatchRequestCounts

/-- The fields of `BifrostBatchRetrieveResponse` the adapter populates. -/
structure BifrostBatchRetrieveResponse where
  id : String
  object : String
  status : BatchStatus
  processingStatus : String
  resultsURL : Option String
  createdAt : Int
  expiresAt : Option Int
  completedAt : Option Int
  archivedAt : Option Int
  cancellingAt : Option Int
  requestCounts : BatchRequestCounts

/-- Method `ToBifrostBatchCreateResponse` (`src/unnamed/part_002:137-170`). -/
def ToBifrostBatchCreateResponse (timeParse : String → Option Int)
    (r : AnthropicBatchResponse) : BifrostBatchCreateResponse where
  id := r.id
  object := ToBifrostObjectType r.type
  status := ToBifrostBatchStatus r.processingStatus
  processingStatus := r.processingStatus
  resultsURL := r.resultsURL
  createdAt := parseAnthropicTimestamp timeParse r.createdAt
  expiresAt := parseAnthropicTimestamp timeParse r.expiresAt
  requestCounts :=
    match r.requestCounts with
    | none => zeroBatchRequestCounts
    | some rc =>
      { total := rc.processing + rc.succeeded + rc.errored + rc.canceled +
          rc.expired
        completed := rc.succeeded
        failed := rc.errored
        succeeded := rc.succeeded
        expired := rc.expired
        canceled := rc.canceled
        pending := rc.processing }

/-- Method `ToBifrostBatchRetrieveResponse` (`src/unnamed/part_002:173-225`). -/
def ToBifrostBatchRetrieveResponse (timeParse : String → Option Int)
    (r : AnthropicBatchResponse) : BifrostBatchRetrieveResponse where
  id := r.id
  object := ToBifrostObjectType r.type
  status := ToBifrostBatchStatus r.processingStatus
  processingStatus := r.processingStatus
  resultsURL := r.resultsURL
  createdAt := parseAnthropicTimestamp timeParse r.createdAt
  expiresAt :=
    let e := parseAnthropicTimestamp timeParse r.expiresAt
    if 0 < e then some e else none
  completedAt := r.endedAt.map (parseAnthropicTimestamp timeParse)
  archivedAt := r.archivedAt.map (parseAnthropicTimestamp timeParse)
  cancellingAt := r.cancelInitiatedAt.map (parseAnthropicTimestamp timeParse)
  requestCounts :=
    match r.requestCounts with
    | none => zeroBatchRequestCounts
    | some rc =>
      { total := rc.processing + rc.succeeded + rc.errored + rc.canceled +
          rc.expired
        completed := rc.succeeded
        failed := rc.errored
        succeeded := rc.succeeded
        expired := rc.expired
        canceled := rc.canceled
        pending := rc.processing }

/-- C10: whenever the Anthropic batch adapter converts a provider batch
response that carries request counts, the resulting `RequestCounts.Total`
equals `Processing + Succeeded + Errored + Canceled + Expired`, in both the
batch-create and the batch-retrieve conversions. -/
theorem batch_request_counts_total (timeParse : String → Option Int)
    (r : AnthropicBatchResponse) (rc : AnthropicBatchRequestCounts)
    (h : r.requestCounts = some rc) :
    (ToBifrostBatchCreateResponse timeParse r).requestCounts.total =
        rc.processing + rc.succeeded + rc.errored + rc.canceled + rc.expired ∧
      (ToBifrostBatchRetrieveResponse timeParse r).requestCounts.total =
        rc.processing + rc.succeeded + rc.errored + rc.canceled + rc.expired := by
  constructor <;>
    simp [ToBifrostBatchCreateResponse, ToBifrostBatchRetrieveResponse, h]

/-- Witness for C10 at a concrete provider response with counts
(processing 1, succeeded 2, errored 3, canceled 4, expired 5): both totals
are 15. -/
theorem batch_request_counts_total_witness :
    (ToBifrostBatchCreateResponse (fun _ => none)
        ⟨"b1", "message_batch", "ended", some ⟨1, 2, 3, 4, 5⟩, none,
          "", "", none, none, none⟩).requestCounts.total = 15 ∧
      (ToBifrostBatchRetrieveResponse (fun _ => none)
        ⟨"b1", "message_batch", "ended", some ⟨1, 2, 3, 4, 5⟩, none,
          "", "", none, none, none⟩).requestCounts.total = 15 := by
  have h := batch_request_counts_total (fun _ => none)
    ⟨"b1", "message_batch", "ended", some ⟨1, 2, 3, 4, 5⟩, none,
      "", "", none, none, none⟩ ⟨1, 2, 3, 4, 5⟩ rfl
  exact ⟨by rw [h.1]; norm_num, by rw [h.2]; norm_num⟩

end Bifrost
